import Mathlib

/-!
Shallow embedding of the student-report Go service (`go-service/main.go`):
the credential store (`authTokens`), the authenticator
(`authenticateWithBackend`), the resilient fetcher (`fetchStudentData`),
the HTTP handler (`generateReportHandler`) and the render pipeline
(`generatePDF` / `addInfoRow`).

The upstream API is a black box; an `UpstreamEnv` records, per call index,
the response each login request and each data request receives.  Network
failures and JSON-decode failures are part of those recorded responses.
Time is passed explicitly: a nanosecond instant `now` for the freshness
arithmetic (`time.Since`/`time.Minute` work in nanoseconds) and a calendar
value `GoTime` for the date formatting inside the PDF.  `log.Fatalf`
(process exit) is modelled by the `none` result of the authenticator and
the `fatal` outcomes of the fetcher and handler.
-/

set_option autoImplicit false

namespace StudentReport

/-- Go `time.Minute` in nanoseconds. -/
def nsPerMinute : Nat := 60000000000

/-- The freshness window `14 * time.Minute` compared against `time.Since(lastRefresh)`. -/
def fourteenMinutes : Nat := 14 * nsPerMinute

/-- The process-wide credential store, Go global `authTokens`:
three token strings plus the `lastRefresh` timestamp (nanosecond instant). -/
structure AuthTokens where
  accessToken : String
  refreshToken : String
  csrfToken : String
  lastRefresh : Nat
  deriving DecidableEq, Repr

/-- The student record decoded from the upstream body, Go struct `StudentDetail`. -/
structure StudentDetail where
  ID : Int
  Name : String
  Email : String
  SystemAccess : Bool
  Phone : String
  Gender : String
  DOB : String
  Class : String
  Section : String
  Roll : String
  FatherName : String
  FatherPhone : String
  MotherName : String
  MotherPhone : String
  GuardianName : String
  GuardianPhone : String
  RelationOfGuardian : String
  CurrentAddress : String
  PermanentAddress : String
  AdmissionDate : String
  ReporterName : String
  deriving DecidableEq, Repr

/-- What one `client.Post` to `/auth/login` comes back with: a transport
error (`netErr`), or a status code, the response cookies in order, and
whether the JSON body decodes as a `LoginResponse`. -/
inductive LoginResult where
  | netErr : LoginResult
  | resp (code : Nat) (cookies : List (String × String)) (bodyOk : Bool) : LoginResult
  deriving DecidableEq, Repr

/-- What one `client.Do` of a data request comes back with: a transport
error, or a status code, whether the body decodes as a `StudentDetail`,
the decoded student (meaningful only when `decodeOk`), and the raw body
text the Go code quotes in error messages. -/
inductive DataResp where
  | netErr : DataResp
  | resp (code : Nat) (decodeOk : Bool) (student : StudentDetail) (body : String) : DataResp
  deriving DecidableEq, Repr

/-- The upstream black box: the response to the n-th login call and to the
n-th data request made during one handler invocation. -/
structure UpstreamEnv where
  login : Nat → LoginResult
  data : Nat → DataResp

/-- The cookie-extraction loop of `authenticateWithBackend`: walk the
response cookies in order, overwriting the matching store field for each
cookie named `accessToken`, `refreshToken` or `csrfToken`.  A later cookie
with the same name overwrites an earlier one. -/
def applyCookies (st : AuthTokens) : List (String × String) → AuthTokens
  | [] => st
  | ck :: rest =>
    let st1 :=
      if ck.1 = "accessToken" then { st with accessToken := ck.2 }
      else if ck.1 = "refreshToken" then { st with refreshToken := ck.2 }
      else if ck.1 = "csrfToken" then { st with csrfToken := ck.2 }
      else st
    applyCookies st1 rest

/-- The value of the last cookie named `name` in the list, if any. -/
def lookupLast (name : String) : List (String × String) → Option String
  | [] => none
  | ck :: rest =>
    match lookupLast name rest with
    | some v => some v
    | none => if ck.1 = name then some ck.2 else none

/-- Go `authenticateWithBackend`: post the login request; on a transport
error, a non-200 status, or a body that fails to decode, `log.Fatalf`
terminates the process (`none`).  On success, fold the response cookies
into the store and stamp `lastRefresh` with the current time (`some`). -/
def authenticateWithBackend (lr : LoginResult) (now : Nat) (st : AuthTokens) :
    Option AuthTokens :=
  match lr with
  | .netErr => none
  | .resp code cookies bodyOk =>
    if code ≠ 200 then none
    else
      let st1 := applyCookies st cookies
      if bodyOk then some { st1 with lastRefresh := now } else none

/-- Terminal outcomes of `fetchStudentData`, one constructor per `return`
site of the Go function, plus `fatal` for the paths on which a nested
`authenticateWithBackend` exits the process. -/
inductive FetchOutcome where
  | ok (student : StudentDetail) : FetchOutcome
  | errRequest : FetchOutcome
  | errRequestAfterRefresh : FetchOutcome
  | errNon200AfterRefresh (code : Nat) (body : String) : FetchOutcome
  | errNotFound (studentID : String) : FetchOutcome
  | errNon200 (code : Nat) (body : String) : FetchOutcome
  | errDecode : FetchOutcome
  | fatal : FetchOutcome
  deriving DecidableEq, Repr

/-- `true` exactly on the outcomes the Go function returns as a non-nil
`error` (the process-exit path `fatal` returns nothing at all). -/
def FetchOutcome.isFailure : FetchOutcome → Bool
  | .ok _ => false
  | .fatal => false
  | _ => true

/-- Result of one `fetchStudentData` call: the terminal outcome, the
credential store afterwards, and how many upstream calls were made —
`preAuthCalls` login calls from the freshness check, `retryAuthCalls`
login calls triggered by a 401, `dataRequests` executions of the read
request. -/
structure FetchResult where
  outcome : FetchOutcome
  st : AuthTokens
  preAuthCalls : Nat
  retryAuthCalls : Nat
  dataRequests : Nat
  deriving DecidableEq, Repr

/-- Total number of login calls made by a fetch. -/
def FetchResult.authCalls (r : FetchResult) : Nat :=
  r.preAuthCalls + r.retryAuthCalls

/-- The freshness check opening `fetchStudentData`: when
`time.Since(authTokens.lastRefresh) > 14*time.Minute` the fetch calls the
authenticator before the read (one login call), otherwise the store is
used as is.  `time.Since` is `now - lastRefresh`; a clock reading behind
`lastRefresh` yields a non-positive duration in Go and `0` here, and
neither exceeds the window. -/
def freshnessRefresh (env : UpstreamEnv) (now : Nat) (st0 : AuthTokens) :
    Option AuthTokens × Nat :=
  if fourteenMinutes < now - st0.lastRefresh
  then (authenticateWithBackend (env.login 0) now st0, 1)
  else (some st0, 0)

/-- Go `fetchStudentData`: freshness check, one authenticated read, and on
`401` exactly one re-authentication followed by one retried read whose
outcome is final — only `200` on the retry reaches the decoder, every
other retry status is the generic non-200 error.  On the first attempt
`404` maps to the not-found error, any other non-200 to the generic
error, and `200` to the JSON decoder. -/
def fetchStudentData (env : UpstreamEnv) (now : Nat) (studentID : String)
    (st0 : AuthTokens) : FetchResult :=
  let preCalls := (freshnessRefresh env now st0).2
  match (freshnessRefresh env now st0).1 with
  | none => ⟨.fatal, st0, preCalls, 0, 0⟩
  | some st1 =>
    match env.data 0 with
    | .netErr => ⟨.errRequest, st1, preCalls, 0, 1⟩
    | .resp code dec stu body =>
      if code = 401 then
        match authenticateWithBackend (env.login preCalls) now st1 with
        | none => ⟨.fatal, st1, preCalls, 1, 1⟩
        | some st2 =>
          match env.data 1 with
          | .netErr => ⟨.errRequestAfterRefresh, st2, preCalls, 1, 2⟩
          | .resp code2 dec2 stu2 body2 =>
            if code2 ≠ 200 then ⟨.errNon200AfterRefresh code2 body2, st2, preCalls, 1, 2⟩
            else if dec2 then ⟨.ok stu2, st2, preCalls, 1, 2⟩
            else ⟨.errDecode, st2, preCalls, 1, 2⟩
      else if code = 404 then ⟨.errNotFound studentID, st1, preCalls, 0, 1⟩
      else if code ≠ 200 then ⟨.errNon200 code body, st1, preCalls, 0, 1⟩
      else if dec then ⟨.ok stu, st1, preCalls, 0, 1⟩
      else ⟨.errDecode, st1, preCalls, 0, 1⟩

/-- Go `strconv.Atoi` on a 64-bit platform: an optional `+`/`-` sign
followed by at least one decimal digit, rejected when empty, when any
other character appears, or when the value falls outside the `int64`
range.  Leading zeros are accepted. -/
def goAtoi (s : String) : Option Int :=
  match s.toList with
  | [] => none
  | c :: rest =>
    let (neg, digits) :=
      if c = '+' then (false, rest)
      else if c = '-' then (true, rest)
      else (false, c :: rest)
    if digits = [] then none
    else if digits.all Char.isDigit then
      let v : Nat := digits.foldl (fun a d => a * 10 + (d.toNat - 48)) 0
      let i : Int := if neg then -(v : Int) else (v : Int)
      if -9223372036854775808 ≤ i ∧ i ≤ 9223372036854775807 then some i else none
    else none

/-- A calendar instant as Go's `time.Time` exposes it to `Format`. -/
structure GoTime where
  year : Nat
  month : Nat
  day : Nat
  hour : Nat
  minute : Nat
  second : Nat
  deriving DecidableEq, Repr

/-- The English month names used by Go's `January` format verb. -/
def monthName (m : Nat) : String :=
  ["January", "February", "March", "April", "May", "June", "July",
   "August", "September", "October", "November", "December"].getD (m - 1) "January"

/-- A year zero-padded to four digits, as Go's `2006` format verb prints it. -/
def pad4 (n : Nat) : String :=
  if n < 10 then "000" ++ toString n
  else if n < 100 then "00" ++ toString n
  else if n < 1000 then "0" ++ toString n
  else toString n

/-- Go `time.Now().Format("January 2, 2006")`: full month name, unpadded
day, four-digit year.  The time-of-day fields do not influence it. -/
def formatJan2 (t : GoTime) : String :=
  monthName t.month ++ " " ++ toString t.day ++ ", " ++ pad4 t.year

/-- One drawing call of the `gofpdf` API as `generatePDF` issues it.  The
layout engine consuming this program is the external collaborator; it is
treated as a pure function of the command list. -/
inductive PdfCmd where
  | addPage : PdfCmd
  | setFont (family style : String) (size : Nat) : PdfCmd
  | cell (w h : Nat) (txt : String) : PdfCmd
  | ln (h : Nat) : PdfCmd
  | setY (y : Int) : PdfCmd
  deriving DecidableEq, Repr

/-- Go `addInfoRow`: bold label cell, regular value cell, line break. -/
def addInfoRow (label value : String) : List PdfCmd :=
  [.setFont "Arial" "B" 10, .cell 40 8 (label ++ ":"),
   .setFont "Arial" "" 10, .cell 0 8 value, .ln 8]

/-- Go `generatePDF`: the exact sequence of drawing calls, in source
order.  The clock enters only through the `Generated on:` line, via
`formatJan2`. -/
def generatePDF (student : StudentDetail) (t : GoTime) : List PdfCmd :=
  [.addPage,
   .setFont "Arial" "B" 16,
   .cell 40 10 "Student Report", .ln 15,
   .setFont "Arial" "B" 14,
   .cell 40 10 "School Management System", .ln 10,
   .setFont "Arial" "I" 10,
   .cell 40 10 ("Generated on: " ++ formatJan2 t), .ln 15,
   .setFont "Arial" "B" 12,
   .cell 40 10 "Personal Information", .ln 10]
  ++ addInfoRow "ID" (toString student.ID)
  ++ addInfoRow "Name" student.Name
  ++ addInfoRow "Email" student.Email
  ++ addInfoRow "Phone" student.Phone
  ++ addInfoRow "Gender" student.Gender
  ++ addInfoRow "Date of Birth" student.DOB
  ++ addInfoRow "Admission Date" student.AdmissionDate
  ++ [.ln 10,
      .setFont "Arial" "B" 12,
      .cell 40 10 "Academic Information", .ln 10]
  ++ addInfoRow "Class" student.Class
  ++ addInfoRow "Section" student.Section
  ++ addInfoRow "Roll Number" student.Roll
  ++ [.ln 10,
      .setFont "Arial" "B" 12,
      .cell 40 10 "Family Information", .ln 10]
  ++ addInfoRow "Father\x27s Name" student.FatherName
  ++ addInfoRow "Father\x27s Phone" student.FatherPhone
  ++ addInfoRow "Mother\x27s Name" student.MotherName
  ++ addInfoRow "Mother\x27s Phone" student.MotherPhone
  ++ addInfoRow "Guardian\x27s Name" student.GuardianName
  ++ addInfoRow "Guardian\x27s Phone" student.GuardianPhone
  ++ addInfoRow "Relation of Guardian" student.RelationOfGuardian
  ++ [.ln 10,
      .setFont "Arial" "B" 12,
      .cell 40 10 "Address Information", .ln 10]
  ++ addInfoRow "Current Address" student.CurrentAddress
  ++ addInfoRow "Permanent Address" student.PermanentAddress
  ++ [.ln 10,
      .setY (-30),
      .setFont "Arial" "I" 8,
      .cell 0 10 "This is an official document of School Management System", .ln 5,
      .cell 0 10 ("Report generated by: " ++ student.ReporterName)]

/-- What `generateReportHandler` writes back: `status = none` when a
nested authenticator call exited the process before a response was
written; otherwise the HTTP status, the PDF bytes and the
`Content-Disposition` value on success, and the total number of upstream
calls (login calls plus data requests) made while serving the request. -/
structure HandlerResult where
  status : Option Nat
  upstreamCalls : Nat
  pdfBytes : Option (List Nat)
  disposition : Option String
  deriving DecidableEq, Repr

/-- Go `generateReportHandler`: validate the path id with `strconv.Atoi`
(any parse error or value `<= 0` is answered `400` with no upstream
call), fetch, on any fetch error answer `500`, render, on a render error
answer `500`, otherwise answer `200` with the PDF bytes and an attachment
filename built from the raw id string.  `output` is the external layout
engine turning the drawing program into bytes (`pdf.Output`). -/
def generateReportHandler (env : UpstreamEnv)
    (output : List PdfCmd → Except String (List Nat))
    (now : Nat) (date : GoTime) (st0 : AuthTokens) (studentID : String) :
    HandlerResult :=
  match goAtoi studentID with
  | none => ⟨some 400, 0, none, none⟩
  | some id =>
    if id ≤ 0 then ⟨some 400, 0, none, none⟩
    else
      let r := fetchStudentData env now studentID st0
      let calls := r.authCalls + r.dataRequests
      match r.outcome with
      | .fatal => ⟨none, calls, none, none⟩
      | .ok stu =>
        match output (generatePDF stu date) with
        | .error _ => ⟨some 500, calls, none, none⟩
        | .ok bytes =>
          ⟨some 200, calls, some bytes,
           some ("attachment; filename=student_" ++ studentID ++ "_report.pdf")⟩
      | _ => ⟨some 500, calls, none, none⟩

/-- Spec-side predicate for claim C5, following the spec's words: `s` is
the decimal representation of a positive integer — a nonempty run of
decimal digits with no leading zero (so nonzero value), no sign. -/
def isDecimalRepOfPositive (s : String) : Bool :=
  match s.toList with
  | [] => false
  | c :: rest => (c :: rest).all Char.isDigit && c ≠ '0'

/-! Concrete inputs used by witnesses and counterexamples. -/

/-- A sample decoded record. -/
def sampleStudent : StudentDetail :=
  ⟨1, "Ada", "ada@example.com", true, "555-0100", "F", "2001-01-01", "5", "A",
   "12", "Bob", "555-0101", "Carol", "555-0102", "Dan", "555-0103", "uncle",
   "1 Main St", "2 Oak St", "2015-04-01", "admin"⟩

/-- A store acquired at instant 0; at clock 0 its age is within the window. -/
def stFresh : AuthTokens := ⟨"tokA", "tokR", "tokC", 0⟩

/-- Cookies of a well-formed login response. -/
def loginCookies : List (String × String) :=
  [("accessToken", "newA"), ("refreshToken", "newR"), ("csrfToken", "newC")]

/-- Upstream that always answers the read with `200` and a decodable body. -/
def envOk : UpstreamEnv :=
  { login := fun _ => .resp 200 loginCookies true,
    data := fun _ => .resp 200 true sampleStudent "{}" }

/-- Upstream that answers the first read with `404`. -/
def env404 : UpstreamEnv :=
  { login := fun _ => .resp 200 loginCookies true,
    data := fun _ => .resp 404 false sampleStudent "not found" }

/-- Upstream that answers the first read with `201` and a decodable body. -/
def env201 : UpstreamEnv :=
  { login := fun _ => .resp 200 loginCookies true,
    data := fun _ => .resp 201 true sampleStudent "created" }

/-- Upstream that answers every read with `401` while logins succeed. -/
def env401twice : UpstreamEnv :=
  { login := fun _ => .resp 200 loginCookies true,
    data := fun _ => .resp 401 false sampleStudent "unauthorized" }

/-- Upstream whose first read gets `401`, whose re-login succeeds, and
whose retried read gets `404`. -/
def env401then404 : UpstreamEnv :=
  { login := fun _ => .resp 200 loginCookies true,
    data := fun n => if n = 0 then .resp 401 false sampleStudent "unauthorized"
                     else .resp 404 false sampleStudent "gone" }

/-- Upstream whose reads get `401` and whose login calls fail at the
transport level (backend unreachable). -/
def envReauthFails : UpstreamEnv :=
  { login := fun _ => .netErr,
    data := fun _ => .resp 401 false sampleStudent "unauthorized" }

/-- A layout engine double that always renders successfully. -/
def outOk : List PdfCmd → Except String (List Nat) := fun _ => .ok [37, 80, 68, 70]

/-- A calendar instant for the handler's date parameter. -/
def date0 : GoTime := ⟨2026, 10, 11, 8, 0, 0⟩

/-! Helper lemmas about the cookie loop and the freshness check. -/

lemma applyCookies_accessToken (cookies : List (String × String)) (st : AuthTokens) :
    (applyCookies st cookies).accessToken =
      (lookupLast "accessToken" cookies).getD st.accessToken := by
  induction cookies generalizing st with
  | nil => rfl
  | cons ck rest ih =>
    simp only [applyCookies, lookupLast, ih]
    cases h : lookupLast "accessToken" rest <;> (repeat' split) <;> simp_all

lemma applyCookies_refreshToken (cookies : List (String × String)) (st : AuthTokens) :
    (applyCookies st cookies).refreshToken =
      (lookupLast "refreshToken" cookies).getD st.refreshToken := by
  induction cookies generalizing st with
  | nil => rfl
  | cons ck rest ih =>
    simp only [applyCookies, lookupLast, ih]
    cases h : lookupLast "refreshToken" rest <;> (repeat' split) <;> simp_all

lemma applyCookies_csrfToken (cookies : List (String × String)) (st : AuthTokens) :
    (applyCookies st cookies).csrfToken =
      (lookupLast "csrfToken" cookies).getD st.csrfToken := by
  induction cookies generalizing st with
  | nil => rfl
  | cons ck rest ih =>
    simp only [applyCookies, lookupLast, ih]
    cases h : lookupLast "csrfToken" rest <;> (repeat' split) <;> simp_all

lemma freshnessRefresh_of_fresh {now : Nat} {st : AuthTokens}
    (env : UpstreamEnv) (hfresh : now - st.lastRefresh ≤ fourteenMinutes) :
    freshnessRefresh env now st = (some st, 0) := by
  simp [freshnessRefresh, not_lt.mpr hfresh]

lemma fetch_preAuthCalls (env : UpstreamEnv) (now : Nat) (sid : String)
    (st : AuthTokens) :
    (fetchStudentData env now sid st).preAuthCalls = (freshnessRefresh env now st).2 := by
  simp only [fetchStudentData]
  repeat' split
  all_goals rfl

lemma fetch_401_reduction (env : UpstreamEnv) (now : Nat) (sid : String)
    (st st2 : AuthTokens) (hfresh : now - st.lastRefresh ≤ fourteenMinutes)
    (dec : Bool) (stu : StudentDetail) (b : String)
    (h0 : env.data 0 = .resp 401 dec stu b)
    (hauth : authenticateWithBackend (env.login 0) now st = some st2) :
    fetchStudentData env now sid st =
      match env.data 1 with
      | .netErr => ⟨.errRequestAfterRefresh, st2, 0, 1, 2⟩
      | .resp code2 dec2 stu2 body2 =>
        if code2 ≠ 200 then ⟨.errNon200AfterRefresh code2 body2, st2, 0, 1, 2⟩
        else if dec2 then ⟨.ok stu2, st2, 0, 1, 2⟩
        else ⟨.errDecode, st2, 0, 1, 2⟩ := by
  simp [fetchStudentData, freshnessRefresh_of_fresh env hfresh, h0, hauth]

/-- Claim C1: with a fresh session, a first read answered `401` and a
successful re-login, the fetch makes exactly one re-authentication call
and exactly one retried read; and when the retry is answered `401` again
that second outcome is surfaced as the terminal non-200 failure, with no
further login call or read beyond those counts. -/
theorem fetch_401_single_retry (env : UpstreamEnv) (now : Nat) (sid : String)
    (st : AuthTokens) (hfresh : now - st.lastRefresh ≤ fourteenMinutes)
    (dec : Bool) (stu : StudentDetail) (b : String)
    (h0 : env.data 0 = .resp 401 dec stu b)
    (cks : List (String × String)) (hlogin : env.login 0 = .resp 200 cks true) :
    (fetchStudentData env now sid st).authCalls = 1 ∧
    (fetchStudentData env now sid st).dataRequests = 2 ∧
    (∀ dec2 stu2 b2, env.data 1 = .resp 401 dec2 stu2 b2 →
      (fetchStudentData env now sid st).outcome = .errNon200AfterRefresh 401 b2) := by
  have hauth : authenticateWithBackend (env.login 0) now st =
      some { applyCookies st cks with lastRefresh := now } := by
    rw [hlogin]; simp [authenticateWithBackend]
  rw [fetch_401_reduction env now sid st _ hfresh dec stu b h0 hauth]
  cases h1 : env.data 1 with
  | netErr => exact ⟨rfl, rfl, by simp⟩
  | resp c2 d2 s2 b2 =>
    refine ⟨?_, ?_, fun dec2 stu2 b2' h => ?_⟩
    · by_cases h2 : c2 ≠ 200 <;> cases d2 <;> simp [h2, FetchResult.authCalls]
    · by_cases h2 : c2 ≠ 200 <;> cases d2 <;> simp [h2]
    · simp only [DataResp.resp.injEq] at h
      obtain ⟨rfl, rfl, rfl, rfl⟩ := h
      simp

/-- Claim C1 witness: concrete fetch whose two read attempts both get
`401` while logins succeed. -/
theorem fetch_401_single_retry_witness :
    (fetchStudentData env401twice 0 "7" stFresh).authCalls = 1 ∧
    (fetchStudentData env401twice 0 "7" stFresh).dataRequests = 2 ∧
    (fetchStudentData env401twice 0 "7" stFresh).outcome =
      .errNon200AfterRefresh 401 "unauthorized" := by
  have h := fetch_401_single_retry env401twice 0 "7" stFresh (by decide)
    false sampleStudent "unauthorized" (by decide) loginCookies (by decide)
  exact ⟨h.1, h.2.1, h.2.2 false sampleStudent "unauthorized" (by decide)⟩

/-- Claim C2: a successful authenticator run (status 200, decodable body,
cookies carrying all three token names) replaces the whole stored
session: every token field takes exactly the value carried by that login
response and `lastRefresh` is stamped with the current time — no field of
the prior session survives, so no mixture of runs is ever stored. -/
theorem authenticateWithBackend_atomic_replace (st : AuthTokens) (now : Nat)
    (cookies : List (String × String)) (a r c : String)
    (hA : lookupLast "accessToken" cookies = some a)
    (hR : lookupLast "refreshToken" cookies = some r)
    (hC : lookupLast "csrfToken" cookies = some c) :
    authenticateWithBackend (.resp 200 cookies true) now st = some ⟨a, r, c, now⟩ := by
  have h1 := applyCookies_accessToken cookies st
  have h2 := applyCookies_refreshToken cookies st
  have h3 := applyCookies_csrfToken cookies st
  rw [hA] at h1
  rw [hR] at h2
  rw [hC] at h3
  simp only [Option.getD_some] at h1 h2 h3
  simp [authenticateWithBackend, h1, h2, h3]

/-- Claim C2 witness: concrete login response replacing a concrete prior
session wholesale. -/
theorem authenticateWithBackend_atomic_replace_witness :
    lookupLast "accessToken" loginCookies = some "newA" ∧
    lookupLast "refreshToken" loginCookies = some "newR" ∧
    lookupLast "csrfToken" loginCookies = some "newC" ∧
    authenticateWithBackend (.resp 200 loginCookies true) 77 ⟨"oldA", "oldR", "oldC", 3⟩ =
      some ⟨"newA", "newR", "newC", 77⟩ :=
  ⟨by decide, by decide, by decide,
   authenticateWithBackend_atomic_replace ⟨"oldA", "oldR", "oldC", 3⟩ 77 loginCookies
     "newA" "newR" "newC" (by decide) (by decide) (by decide)⟩

/-- Claim C3, evaluation at the failing input: a fetch whose read gets
`401` and whose recovery login fails at the transport level ends in the
process-exit outcome (`log.Fatalf` inside `authenticateWithBackend`), not
in any per-request error the handler could turn into a 500. -/
theorem reauth_failure_is_process_fatal :
    (fetchStudentData envReauthFails 0 "1" stFresh).outcome = .fatal ∧
    ((fetchStudentData envReauthFails 0 "1" stFresh).outcome.isFailure = false) := by
  decide

/-- Claim C4: a fetch makes the proactive authenticator call before the
read if and only if the session's age exceeds 14 minutes strictly (an
absent session is the zero-timestamp store, whose age always exceeds the
window once the clock is past it); a younger or exactly 14-minute-old
session is never proactively refreshed. -/
theorem fetch_proactive_refresh_iff (env : UpstreamEnv) (now : Nat) (sid : String)
    (st : AuthTokens) :
    (fetchStudentData env now sid st).preAuthCalls =
      if fourteenMinutes < now - st.lastRefresh then 1 else 0 := by
  rw [fetch_preAuthCalls]
  unfold freshnessRefresh
  split <;> rfl

/-- Claim C6: a first read answered `404` (after a freshness phase that
did not exit the process) is terminal: the not-found outcome, exactly one
read, and zero `401`-triggered login calls. -/
theorem fetch_404_terminal_no_reauth (env : UpstreamEnv) (now : Nat) (sid : String)
    (st st1 : AuthTokens) (hpre : (freshnessRefresh env now st).1 = some st1)
    (dec : Bool) (stu : StudentDetail) (b : String)
    (h0 : env.data 0 = .resp 404 dec stu b) :
    (fetchStudentData env now sid st).outcome = .errNotFound sid ∧
    (fetchStudentData env now sid st).dataRequests = 1 ∧
    (fetchStudentData env now sid st).retryAuthCalls = 0 := by
  simp [fetchStudentData, hpre, h0]

/-- Claim C6 witness: concrete fetch whose first read gets `404`. -/
theorem fetch_404_terminal_no_reauth_witness :
    (freshnessRefresh env404 0 stFresh).1 = some stFresh ∧
    (fetchStudentData env404 0 "9999" stFresh).outcome = .errNotFound "9999" ∧
    (fetchStudentData env404 0 "9999" stFresh).dataRequests = 1 ∧
    (fetchStudentData env404 0 "9999" stFresh).retryAuthCalls = 0 := by
  have h := fetch_404_terminal_no_reauth env404 0 "9999" stFresh stFresh (by decide)
    false sampleStudent "not found" (by decide)
  exact ⟨by decide, h.1, h.2.1, h.2.2⟩

/-- Claim C5 counterexample: `"007"` is not the decimal representation of
any positive integer, yet the handler does not answer 400 — it parses it
with `strconv.Atoi` to `7`, makes an upstream call, and serves the
report. -/
theorem handler_decimal_rep_counterexample :
    isDecimalRepOfPositive "007" = false ∧
    (generateReportHandler envOk outOk 0 date0 stFresh "007").status = some 200 ∧
    (generateReportHandler envOk outOk 0 date0 stFresh "007").upstreamCalls = 1 := by
  decide

/-- Claim C5 as amended: for every path id that `strconv.Atoi` rejects or
parses to a non-positive value, the handler answers 400 and makes zero
upstream calls. -/
theorem handler_unparseable_id_400 (env : UpstreamEnv)
    (output : List PdfCmd → Except String (List Nat)) (now : Nat) (date : GoTime)
    (st : AuthTokens) (sid : String)
    (h : ∀ v : Int, goAtoi sid = some v → v ≤ 0) :
    generateReportHandler env output now date st sid = ⟨some 400, 0, none, none⟩ := by
  cases hv : goAtoi sid with
  | none => simp [generateReportHandler, hv]
  | some v => simp [generateReportHandler, hv, h v hv]

/-- Claim C5 witness: the non-numeric id `"abc"` gets 400 and no
upstream call. -/
theorem handler_unparseable_id_400_witness :
    (∀ v : Int, goAtoi "abc" = some v → v ≤ 0) ∧
    generateReportHandler envOk outOk 0 date0 stFresh "abc" = ⟨some 400, 0, none, none⟩ := by
  have h : ∀ v : Int, goAtoi "abc" = some v → v ≤ 0 := by
    intro v hv
    simp [show goAtoi "abc" = none from by decide] at hv
  exact ⟨h, handler_unparseable_id_400 envOk outOk 0 date0 stFresh "abc" h⟩

/-- Claim C7: once the id validates, every error returned by the fetcher
(the not-found error included) is answered 500, and a 200 answer can
arise only from a fetch that returned a record and a render that
succeeded. -/
theorem handler_fetch_failure_500 (env : UpstreamEnv)
    (output : List PdfCmd → Except String (List Nat)) (now : Nat) (date : GoTime)
    (st : AuthTokens) (sid : String) (v : Int)
    (hid : goAtoi sid = some v) (hv : 0 < v) :
    ((fetchStudentData env now sid st).outcome.isFailure = true →
      (generateReportHandler env output now date st sid).status = some 500) ∧
    ((generateReportHandler env output now date st sid).status = some 200 →
      ∃ stu bytes, (fetchStudentData env now sid st).outcome = .ok stu ∧
        output (generatePDF stu date) = .ok bytes) := by
  have hnle : ¬ v ≤ 0 := not_le.mpr hv
  simp only [generateReportHandler, hid, if_neg hnle]
  cases ho : (fetchStudentData env now sid st).outcome with
  | ok stu =>
    cases hout : output (generatePDF stu date) with
    | error e => simp [FetchOutcome.isFailure, hout]
    | ok bytes => exact ⟨by simp [FetchOutcome.isFailure], fun _ => ⟨stu, bytes, rfl, hout⟩⟩
  | fatal => simp [FetchOutcome.isFailure]
  | errRequest => simp [FetchOutcome.isFailure]
  | errRequestAfterRefresh => simp [FetchOutcome.isFailure]
  | errNon200AfterRefresh code body => simp [FetchOutcome.isFailure]
  | errNotFound x => simp [FetchOutcome.isFailure]
  | errNon200 code body => simp [FetchOutcome.isFailure]
  | errDecode => simp [FetchOutcome.isFailure]

/-- Claim C7 witness: a not-found fetch is answered 500. -/
theorem handler_fetch_failure_500_witness :
    goAtoi "2" = some 2 ∧ (0 : Int) < 2 ∧
    (generateReportHandler env404 outOk 0 date0 stFresh "2").status = some 500 :=
  ⟨by decide, by decide,
   (handler_fetch_failure_500 env404 outOk 0 date0 stFresh "2" 2 (by decide)
     (by decide)).1 (by decide)⟩

/-- Claim C8 counterexample: a first read answered `201` with a decodable
body is not decoded and returned — the code compares against exactly 200
and classifies every other 2xx as the generic non-200 upstream error. -/
theorem fetch_2xx_counterexample :
    env201.data 0 = .resp 201 true sampleStudent "created" ∧
    (fetchStudentData env201 0 "1" stFresh).outcome = .errNon200 201 "created" ∧
    (fetchStudentData env201 0 "1" stFresh).outcome ≠ .ok sampleStudent := by
  decide

/-- Claim C8 as amended: on the first attempt only status exactly 200
reaches the decoder — a decodable 200 body is returned, an undecodable
one is the decode error — and every other status apart from 401 and 404,
other 2xx included, is the generic non-200 upstream error. -/
theorem fetch_only_200_decodes (env : UpstreamEnv) (now : Nat) (sid : String)
    (st : AuthTokens) (hfresh : now - st.lastRefresh ≤ fourteenMinutes)
    (code : Nat) (dec : Bool) (stu : StudentDetail) (b : String)
    (h0 : env.data 0 = .resp code dec stu b) (h401 : code ≠ 401) (h404 : code ≠ 404) :
    (fetchStudentData env now sid st).outcome =
      if code = 200 then (if dec then .ok stu else .errDecode) else .errNon200 code b := by
  have hfr := freshnessRefresh_of_fresh env hfresh
  by_cases h200 : code = 200
  · subst h200
    cases dec <;> simp [fetchStudentData, hfr, h0]
  · simp [fetchStudentData, hfr, h0, h401, h404, h200]

/-- Claim C8 witness: a decodable 200 body is decoded and returned. -/
theorem fetch_only_200_decodes_witness :
    envOk.data 0 = .resp 200 true sampleStudent "{}" ∧
    (fetchStudentData envOk 0 "1" stFresh).outcome = .ok sampleStudent := by
  have h := fetch_only_200_decodes envOk 0 "1" stFresh (by decide) 200 true
    sampleStudent "{}" (by decide) (by decide) (by decide)
  exact ⟨by decide, by rw [h]; decide⟩

/-- Claim C9: the drawing program `generatePDF` emits depends on the clock
only through the formatted generation-date line, so any pure layout
engine renders byte-identical output for the same record whenever the
formatted dates agree — across runs at different times of the same
day in particular. -/
theorem generatePDF_deterministic (α : Type) (render : List PdfCmd → α)
    (s : StudentDetail) (t1 t2 : GoTime) (h : formatJan2 t1 = formatJan2 t2) :
    render (generatePDF s t1) = render (generatePDF s t2) := by
  unfold generatePDF
  rw [h]

/-- Claim C9 witness: two clock readings of the same calendar day, hours
apart, yield the same drawing program for the sample record. -/
theorem generatePDF_deterministic_witness :
    formatJan2 ⟨2026, 10, 11, 8, 0, 0⟩ = formatJan2 ⟨2026, 10, 11, 17, 30, 5⟩ ∧
    generatePDF sampleStudent ⟨2026, 10, 11, 8, 0, 0⟩ =
      generatePDF sampleStudent ⟨2026, 10, 11, 17, 30, 5⟩ :=
  ⟨rfl, generatePDF_deterministic (List PdfCmd) (fun l => l) sampleStudent
    ⟨2026, 10, 11, 8, 0, 0⟩ ⟨2026, 10, 11, 17, 30, 5⟩ rfl⟩

/-- Claim C10: when the retry after a 401 and a successful re-login is
answered `404`, the fetch returns the generic non-200-after-refresh
error, not the not-found outcome a first-attempt 404 produces. -/
theorem fetch_retry_404_not_notfound (env : UpstreamEnv) (now : Nat) (sid : String)
    (st : AuthTokens) (hfresh : now - st.lastRefresh ≤ fourteenMinutes)
    (dec : Bool) (stu : StudentDetail) (b : String)
    (h0 : env.data 0 = .resp 401 dec stu b)
    (cks : List (String × String)) (hlogin : env.login 0 = .resp 200 cks true)
    (dec2 : Bool) (stu2 : StudentDetail) (b2 : String)
    (h1 : env.data 1 = .resp 404 dec2 stu2 b2) :
    (fetchStudentData env now sid st).outcome = .errNon200AfterRefresh 404 b2 ∧
    ∀ x, (fetchStudentData env now sid st).outcome ≠ .errNotFound x := by
  have hauth : authenticateWithBackend (env.login 0) now st =
      some { applyCookies st cks with lastRefresh := now } := by
    rw [hlogin]; simp [authenticateWithBackend]
  rw [fetch_401_reduction env now sid st _ hfresh dec stu b h0 hauth]
  rw [h1]
  simp

/-- Claim C10 witness: concrete fetch with `401` then `404`. -/
theorem fetch_retry_404_not_notfound_witness :
    env401then404.data 0 = .resp 401 false sampleStudent "unauthorized" ∧
    env401then404.data 1 = .resp 404 false sampleStudent "gone" ∧
    (fetchStudentData env401then404 0 "9999" stFresh).outcome =
      .errNon200AfterRefresh 404 "gone" := by
  have h := fetch_retry_404_not_notfound env401then404 0 "9999" stFresh (by decide)
    false sampleStudent "unauthorized" (by decide) loginCookies (by decide)
    false sampleStudent "gone" (by decide)
  exact ⟨by decide, by decide, h.1⟩

end StudentReport
